import Mathlib

/-!
Shallow embedding of the accounts microservice: the FastAPI route handlers of
`api/v1/accounts.py` and the pydantic schemas of `schemas/user.py`.

Modelling conventions:
- the MongoDB collection `accounts` is a list of documents; `find_one` is
  `List.find?`, `insert_one` appends, `find_one_and_update` updates the first
  matching document;
- the Redis notification store (db=2, keyed by email, value = code string) is an
  association list `List (String × String)`;
- each handler is a pure function from the store state and the parsed request
  body to an outcome (one constructor per distinct HTTP response, including the
  uncaught Python exceptions that surface as internal errors) and the new state;
- pydantic `EmailStr` format validation is abstracted: email inputs are plain
  strings, which is irrelevant to all properties considered here.
-/

namespace Accounts

/-- Modelled from the spec: the Credential Hasher (`utils.user_utils.get_password_hash`
and `utils.user_utils.verify_password`) is imported by the handlers but its module is
not part of the source tree. Spec §4.1: `hash` is a one-way transform with a per-call
random salt embedded in the output (so two calls on the same input differ), and
`verify(plaintext, digest)` succeeds iff `plaintext` matches the one that produced the
digest. We model a digest as the hashed plaintext paired with the per-call salt; the
salt is passed to each hashing call site as an explicit nondeterminism input. -/
structure Digest where
  plain : String
  salt : Nat
deriving DecidableEq, Repr

/-- Modelled from the spec: see `Digest`. -/
def get_password_hash (plaintext : String) (salt : Nat) : Digest :=
  { plain := plaintext, salt := salt }

/-- Modelled from the spec: see `Digest`. `verify(plaintext, digest)` succeeds iff the
plaintext matches the hashed one, for any salt. -/
def verify_password (plaintext : String) (digest : Digest) : Bool :=
  plaintext == digest.plain

/-- One document of the Mongo `accounts` collection, as written by `register`:
`{"email": ..., "password": <hash>, "is_account_enable": ...}` plus the generated
`_id` (modelled as a `Nat`, named `oid` since `_id` is not a valid Lean name) and the
optional profile fields that `update_profile` may set later. -/
structure Account where
  oid : Nat
  email : String
  password : Digest
  is_account_enable : Bool
  first_name : Option String := none
  last_name : Option String := none
deriving DecidableEq, Repr

/-- Payload sent to the notification microservice: `{"email": ..., "action": ...}`. -/
structure NotifPayload where
  email : String
  action : String
deriving DecidableEq, Repr

/-- Outcome of invoking `Notification.code_call`. Its Python signature is
`async def code_call(self, payload: dict, request)`: it REQUIRES a `request` argument
(used for the `unique_id` header). A call that omits `request` raises `TypeError`
before any HTTP request is made. -/
inductive CallOutcome where
  | typeError
  | sent (payload : NotifPayload)
deriving DecidableEq, Repr

/-- `services/notification_microservice.py`, `Notification.code_call`: the `request`
argument is modelled as `Option Unit` (`none` = the call site omitted it, which in
Python raises `TypeError: code_call() missing 1 required positional argument`). -/
def code_call (payload : NotifPayload) (request : Option Unit) : CallOutcome :=
  match request with
  | none => .typeError
  | some _ => .sent payload

/-- A recorded invocation attempt of `code_call`: the payload the call site passed and
what the call did (raise `TypeError`, or send the payload). -/
structure CodeCallEvent where
  payload : NotifPayload
  outcome : CallOutcome
deriving DecidableEq, Repr

/-- The shared store state: the Mongo `accounts` collection, the ObjectId counter for
the next insert, and the Redis notification database mapping an email to the
outstanding verification code (`redis.get(email)` in `verify`). -/
structure DBState where
  accounts : List Account
  nextId : Nat
  redisNotif : List (String × String)
deriving DecidableEq, Repr

/-- The empty initial state. -/
def initState : DBState :=
  { accounts := [], nextId := 0, redisNotif := [] }

/-! ### Request schemas (`schemas/user.py`)

`UserSignUp(BaseUser)` declares `password`, `confirmed_password` and
`is_account_enable: bool = False`. It does NOT inherit `PasswordMixins`, so no
password-policy or confirmation-match validator runs on signup, and the
`is_account_enable` field is an ordinary request-body field with default `False`
that a client may set. -/

structure UserSignUp where
  email : String
  password : String
  confirmed_password : String
  is_account_enable : Bool := false
deriving DecidableEq, Repr

structure UserSignIn where
  email : String
  password : String
deriving DecidableEq, Repr

/-- Response model of `register`: `UserInfo(id=str(_id), email=...)`. -/
structure UserInfo where
  id : String
  email : String
deriving DecidableEq, Repr

/-- `UserProfileUpdate`: all three fields optional. `none` models a field absent from
the request (excluded by `model_dump(exclude_unset=True)`); an explicit JSON `null`
for a field is not modelled, which no property here depends on. -/
structure UserProfileUpdate where
  email : Option String := none
  first_name : Option String := none
  last_name : Option String := none
deriving DecidableEq, Repr

/-- `Verify(BaseModel)` declares exactly one field, `code`. -/
structure Verify where
  code : String
deriving DecidableEq, Repr

/-- Attribute access `verification_info.email` performed by the `verify` handler.
The `Verify` pydantic model defines no `email` field, so this access raises
`AttributeError`; hence the result is always `none`. -/
def Verify.getAttrEmail (_v : Verify) : Option String :=
  none

/-- `ResetPassword(PasswordMixins)`: `new_password`, `confirmed_new_password` (from the
mixin) and `code`. Values of this type are post-validation: pydantic has already run
the mixin validators (see `parsePasswordMixins`). -/
structure ResetPassword where
  new_password : String
  confirmed_new_password : String
  code : String
deriving DecidableEq, Repr

/-! ### The password policy (`PasswordMixins.validate_password`)

The validator is `re.match(PASSWORD_PATTERN, value)` with

  `PASSWORD_PATTERN = "^(?=.*?[A-Z])(?=.*?[a-z])(?=.*?[0-9])(?=.*?[#?!@$%^&*-_]).{8,}$"`

We embed the Python `re` semantics of this one pattern directly:
- a lookahead `(?=.*?[X])` at position 0 succeeds iff some character satisfying the
  class `[X]` occurs in the string with no newline before it (`.` never matches a
  newline); laziness of `*?` is irrelevant to matching success;
- the body `.{8,}$` succeeds iff the string has at least 8 characters none of which
  is a newline, or at least 9 characters whose last is a newline and the rest are
  newline-free (`$` also matches just before a final newline);
- the character class `[#?!@$%^&*-_]` contains the literal characters
  `#` `?` `!` `@` `$` `%` `^` and — because `*-_` is a RANGE inside a class — every
  character with code between 42 (`*`) and 95 (`_`), which includes all digits and
  all uppercase letters. -/

def isUpperAZ (c : Char) : Bool :=
  65 ≤ c.toNat && c.toNat ≤ 90

def isLowerAZ (c : Char) : Bool :=
  97 ≤ c.toNat && c.toNat ≤ 122

def isDigit09 (c : Char) : Bool :=
  48 ≤ c.toNat && c.toNat ≤ 57

/-- The class `[#?!@$%^&*-_]`: its literal members plus the range `*`(42)–`_`(95). -/
def inSpecialClass (c : Char) : Bool :=
  c == '#' || c == '?' || c == '!' || c == '@' || c == '$' || c == '%' || c == '^'
    || (42 ≤ c.toNat && c.toNat ≤ 95)

/-- Semantics of the lookahead `(?=.*?[p])` at position 0: scan for a character
satisfying `p`, stopping at the first newline (`.` does not match newlines). -/
def scanFor (p : Char → Bool) : List Char → Bool
  | [] => false
  | c :: rest => if p c then true else if c == '\n' then false else scanFor p rest

/-- Semantics of the body `.{8,}$` at position 0 (no `re.MULTILINE`): at least 8
non-newline characters reaching the end of the string, or reaching a lone final
newline. -/
def bodyMatch (s : List Char) : Bool :=
  (decide (8 ≤ s.length) && s.all (fun c => !(c == '\n')))
    || (decide (9 ≤ s.length) && (s.getLast? == some '\n')
          && s.dropLast.all (fun c => !(c == '\n')))

/-- `PasswordMixins.validate_password`: `re.match(PASSWORD_PATTERN, value)` succeeds,
i.e. all four lookaheads and the body match at position 0. Returns `true` when the
value is accepted; the source raises `HTTPException 400` otherwise. -/
def validate_password (value : String) : Bool :=
  scanFor isUpperAZ value.data && scanFor isLowerAZ value.data
    && scanFor isDigit09 value.data && scanFor inSpecialClass value.data
    && bodyMatch value.data

/-- Rendered from the spec's words, for comparison with `validate_password` (the
definition translated from the source): "minimum length 8; must contain ≥1 uppercase,
≥1 lowercase, ≥1 digit, ≥1 symbol from a fixed special-character set", reading the
special-character set as the literal characters written in the pattern's class,
`#` `?` `!` `@` `$` `%` `^` `&` `*` `-` `_`. -/
def specSpecialChars : List Char :=
  ['#', '?', '!', '@', '$', '%', '^', '&', '*', '-', '_']

/-- Rendered from the spec's words: see `specSpecialChars`. -/
def specPolicy (s : String) : Bool :=
  decide (8 ≤ s.data.length) && s.data.any isUpperAZ && s.data.any isLowerAZ
    && s.data.any isDigit09 && s.data.any (fun c => specSpecialChars.contains c)

inductive MixinsError where
  | policyError
  | mismatch
deriving DecidableEq, Repr

/-- The validation pydantic runs when parsing a `PasswordMixins` payload: the
`field_validator` (mode `before`) `validate_password` on `new_password` runs first,
then the `model_validator` (mode `after`) `check_passwords_match`. -/
def parsePasswordMixins (new_password confirmed_new_password : String) :
    Except MixinsError Unit :=
  if validate_password new_password = false then .error .policyError
  else if new_password == confirmed_new_password then .ok ()
  else .error .mismatch

/-! ### The route handlers (`api/v1/accounts.py`) -/

inductive RegisterResult where
  | created (info : UserInfo)
  | emailAlreadyRegistered
deriving DecidableEq, Repr

/-- `register`: look up the email; if present, HTTP 400 "Email already registered";
otherwise hash the password, insert
`{"email": ..., "password": hash, "is_account_enable": user.is_account_enable}`
and return `UserInfo(id=str(_id), email=...)`. `salt` is the hasher's per-call
random salt. -/
def register (st : DBState) (user : UserSignUp) (salt : Nat) :
    RegisterResult × DBState :=
  match st.accounts.find? (fun a => a.email == user.email) with
  | some _ => (.emailAlreadyRegistered, st)
  | none =>
    let hashed := get_password_hash user.password salt
    let doc : Account :=
      { oid := st.nextId, email := user.email, password := hashed,
        is_account_enable := user.is_account_enable }
    (.created { id := toString st.nextId, email := user.email },
     { st with accounts := st.accounts ++ [doc], nextId := st.nextId + 1 })

inductive VerifyResult where
  | attributeError
  | noneTypeError
  | alreadyEnabled
  | invalidEmailOrExpired
  | invalidCode
  | enabledSuccessfully
deriving DecidableEq, Repr

/-- `redis.get(key)` on the notification database. -/
def lookupRedis (st : DBState) (key : String) : Option String :=
  (st.redisNotif.find? (fun kv => kv.fst == key)).map (fun kv => kv.snd)

/-- `find_one_and_update(filter={"email": email}, update={"$set": {"is_account_enable": True}})`:
enable the first document with this email. -/
def setEnabledFirst (email : String) : List Account → List Account
  | [] => []
  | a :: rest =>
    if a.email == email then { a with is_account_enable := true } :: rest
    else a :: setEnabledFirst email rest

/-- `verify`: the handler first evaluates `verification_info.email`, which raises
`AttributeError` (the `Verify` schema has no `email` field), surfacing as an internal
error with no state change. The remaining branches transcribe the rest of the handler
body and are unreachable: `result["is_account_enable"]` on a `None` lookup would raise
`TypeError` (`noneTypeError`); `if not code` catches both a missing key and an empty
string; a non-matching code is HTTP 400 "Invalid code"; otherwise the account is
enabled. Note the code is never deleted from Redis — the source only carries the
comment `# publisher to delete code from redis`. -/
def verify (st : DBState) (verification_info : Verify) : VerifyResult × DBState :=
  match verification_info.getAttrEmail with
  | none => (.attributeError, st)
  | some email =>
    match st.accounts.find? (fun a => a.email == email) with
    | none => (.noneTypeError, st)
    | some result =>
      if result.is_account_enable then (.alreadyEnabled, st)
      else
        match lookupRedis st email with
        | none => (.invalidEmailOrExpired, st)
        | some code =>
          if code == "" then (.invalidEmailOrExpired, st)
          else if !(code == verification_info.code) then (.invalidCode, st)
          else (.enabledSuccessfully,
                { st with accounts := setEnabledFirst email st.accounts })

inductive LoginResult where
  | emailWrong
  | passwordWrong
  | typeErrorMissingRequest
  | notVerified
  | ok (id : String) (email : String)
deriving DecidableEq, Repr

/-- `login`: email lookup (HTTP 400 "Email is wrong"), then password check
(HTTP 403 "Password is wrong"), then the enabled check. On an unverified account the
handler calls `notification_client.code_call({"email": ..., "action": "verify account"})`
with only ONE argument, while `code_call` requires `(payload, request)`; the call
raises `TypeError`, so the handler dies with an internal error BEFORE raising the
intended HTTP 455. The second component records the `code_call` invocation attempts
with their outcomes. -/
def login (st : DBState) (user : UserSignIn) : LoginResult × List CodeCallEvent :=
  match st.accounts.find? (fun a => a.email == user.email) with
  | none => (.emailWrong, [])
  | some result =>
    if !(verify_password user.password result.password) then (.passwordWrong, [])
    else if !result.is_account_enable then
      let payload : NotifPayload := { email := user.email, action := "verify account" }
      match code_call payload none with
      | .typeError => (.typeErrorMissingRequest, [{ payload := payload, outcome := .typeError }])
      | .sent p => (.notVerified, [{ payload := payload, outcome := .sent p }])
    else (.ok (toString result.oid) user.email, [])

/-- The `$set` of `update_profile`: apply exactly the supplied fields. -/
def applyProfileUpdate (user_data : UserProfileUpdate) (a : Account) : Account :=
  { a with
    email := user_data.email.getD a.email,
    first_name := match user_data.first_name with
      | none => a.first_name
      | some v => some v,
    last_name := match user_data.last_name with
      | none => a.last_name
      | some v => some v }

/-- Update the first element satisfying `p` (Mongo `find_one_and_update` touches a
single document). -/
def updateFirst {α : Type} (p : α → Bool) (f : α → α) : List α → List α
  | [] => []
  | x :: xs => if p x then f x :: xs else x :: updateFirst p f xs

/-- `update_profile` (route `PATCH /update_profile`): `find_one_and_update` on
`_id = payload["id"]` with `$set` of the supplied fields, `ReturnDocument.AFTER`.
There is NO uniqueness check on the new email. Returns the post-update document
(`none` models the `TypeError` the handler hits when no document matches). -/
def profile_update (st : DBState) (user_data : UserProfileUpdate) (payloadId : Nat) :
    Option Account × DBState :=
  match st.accounts.find? (fun a => a.oid == payloadId) with
  | none => (none, st)
  | some a =>
    (some (applyProfileUpdate user_data a),
     { st with accounts :=
        updateFirst (fun x => x.oid == payloadId) (applyProfileUpdate user_data) st.accounts })

inductive ResetResult where
  | invalidToken
  | passwordChanged
deriving DecidableEq, Repr

/-! ### Concrete states and requests used by the claim theorems and witnesses -/

/-- A well-formed signup request for `a@x.com` with a policy-compliant password. -/
def uA : UserSignUp :=
  { email := "a@x.com", password := "Abcdef1!", confirmed_password := "Abcdef1!" }

/-- A well-formed signup request for `b@x.com`. -/
def uB : UserSignUp :=
  { email := "b@x.com", password := "Abcdef1!", confirmed_password := "Abcdef1!" }

/-- A state holding one unverified account `a@x.com` whose stored hash is of
`"Abcdef1!"`, with an outstanding verification code `"1234"` in Redis. -/
def stUnverified : DBState :=
  { accounts := [{ oid := 0, email := "a@x.com", password := { plain := "Abcdef1!", salt := 7 },
                   is_account_enable := false }],
    nextId := 1,
    redisNotif := [("a@x.com", "1234")] }

/-- The same single-account state with the account verified. -/
def stVerified : DBState :=
  { accounts := [{ oid := 0, email := "a@x.com", password := { plain := "Abcdef1!", salt := 7 },
                   is_account_enable := true }],
    nextId := 1,
    redisNotif := [("a@x.com", "1234")] }

/-- `reset_password_info.model_dump()`: the dict with exactly the schema's keys. -/
def ResetPassword.model_dump (rp : ResetPassword) : List (String × String) :=
  [("new_password", rp.new_password),
   ("confirmed_new_password", rp.confirmed_new_password),
   ("code", rp.code)]

/-- `reset_password`: the handler evaluates `reset_password_info["token"]` inside the
`try` block; the dumped dict has keys `new_password`, `confirmed_new_password` and
`code` only, so the access raises `KeyError`, which the bare `except Exception` turns
into HTTP 400 "Invalid token". The `some` branch (token present, `decode_token`, then
the password update) is unreachable, since `model_dump` never yields a `"token"` key;
`decode_token` (absent `utils.token_utils`) is therefore not modelled and the branch
only records that the flow would proceed. -/
def reset_password (st : DBState) (reset_password_info : ResetPassword) :
    ResetResult × DBState :=
  match (reset_password_info.model_dump.find? (fun kv => kv.fst == "token")).map
      (fun kv => kv.snd) with
  | none => (.invalidToken, st)
  | some _token => (.passwordChanged, st)

/-! ### Helper lemmas -/

/-- On a newline-free list, the lookahead scan agrees with plain existence. -/
theorem scanFor_eq_any (p : Char → Bool) :
    ∀ l : List Char, l.all (fun c => !(c == '\n')) = true → scanFor p l = l.any p
  | [], _ => rfl
  | c :: l, h => by
    have hc : (c == '\n') = false := by
      have := (List.all_cons .. ▸ h)
      simp_all
    have hl : l.all (fun c => !(c == '\n')) = true := by
      have := (List.all_cons .. ▸ h)
      simp_all
    cases hp : p c with
    | true => simp [scanFor, hp]
    | false => simp [scanFor, hp, hc, scanFor_eq_any p l hl]

/-- A newline-free list does not end in a newline. -/
theorem getLast?_ne_newline :
    ∀ l : List Char, l.all (fun c => !(c == '\n')) = true → (l.getLast? == some '\n') = false
  | [], _ => rfl
  | [c], h => by
    have hc : (c == '\n') = false := by simp_all
    simp [List.getLast?, hc]
  | c :: d :: m, h => by
    rw [List.getLast?_cons_cons]
    exact getLast?_ne_newline (d :: m) (by simp_all)

/-- On newline-free input the regex body `.{8,}$` is exactly the length bound. -/
theorem bodyMatch_of_no_newline (l : List Char)
    (h : l.all (fun c => !(c == '\n')) = true) :
    bodyMatch l = decide (8 ≤ l.length) := by
  unfold bodyMatch
  rw [h, getLast?_ne_newline l h]
  simp

/-! ### The claims -/

/-- C1. The claim says every successfully registered account is stored with
`isEnabled = false` regardless of the request body. The code stores the
client-supplied `is_account_enable` field of the signup body (default `false`), so a
request carrying `is_account_enable = true` creates an account that is already
enabled, bypassing verification: the theorem evaluates `register` on such a request
from the empty state and exhibits the created enabled account. -/
theorem C1_register_stores_request_enable_flag :
    (register initState
        { email := "a@x.com", password := "Abcdef1!", confirmed_password := "Abcdef1!",
          is_account_enable := true } 0).1
      = .created { id := "0", email := "a@x.com" }
    ∧ (register initState
        { email := "a@x.com", password := "Abcdef1!", confirmed_password := "Abcdef1!",
          is_account_enable := true } 0).2.accounts.any
        (fun a => a.email == "a@x.com" && a.is_account_enable) = true := by
  constructor
  · decide
  · decide

/-- C2. The claim says a successfully consumed verify-code is deleted from the store
so a second presentation fails. In the code the deletion exists only as the comment
`# publisher to delete code from redis`: no execution of `verify` ever removes
anything from the Redis code store (indeed `verify` raises `AttributeError` before
touching it), so codes are never invalidated. -/
theorem C2_verify_never_deletes_code (st : DBState) (v : Verify) :
    ((verify st v).2).redisNotif = st.redisNotif := rfl

/-- C3. The `verify` handler reads `verification_info.email`, but the `Verify` schema
defines only `code`; the attribute access raises `AttributeError`, so every verify
call fails with an internal error before any store read or account-state change. -/
theorem C3_verify_always_attribute_error (st : DBState) (v : Verify) :
    verify st v = (.attributeError, st) := rfl

/-- C4 counterexample. The claim says no reachable state has two accounts sharing an
email and that `updateProfile` cannot create such a state. Executing from the empty
state: register `a@x.com`, register `b@x.com` (both succeed), then `update_profile`
on the second account setting its email to `a@x.com` succeeds — no uniqueness check
runs — leaving two accounts with email `a@x.com`. -/
theorem C4_profile_update_breaks_uniqueness :
    (register initState uA 0).1 ≠ .emailAlreadyRegistered
    ∧ (register (register initState uA 0).2 uB 1).1 ≠ .emailAlreadyRegistered
    ∧ (profile_update (register (register initState uA 0).2 uB 1).2
        { email := some "a@x.com" } 1).1 ≠ none
    ∧ ((profile_update (register (register initState uA 0).2 uB 1).2
        { email := some "a@x.com" } 1).2.accounts.filter
          (fun a => a.email == "a@x.com")).length = 2 := by
  refine ⟨by decide, by decide, by decide, by decide⟩

/-- C4 (amended). Registration does enforce email uniqueness: whenever some stored
account already has the requested email, `register` fails with the conflict error and
leaves the state unchanged. (The `update_profile` handler, by contrast, performs no
uniqueness check — see the counterexample.) -/
theorem C4_register_rejects_duplicate_email (st : DBState) (user : UserSignUp)
    (salt : Nat) (h : st.accounts.any (fun a => a.email == user.email) = true) :
    register st user salt = (.emailAlreadyRegistered, st) := by
  rcases hfind : st.accounts.find? (fun a => a.email == user.email) with _ | a
  · exfalso
    obtain ⟨x, hx, hpx⟩ := List.any_eq_true.mp h
    exact (List.find?_eq_none.mp hfind x hx) hpx
  · simp [register, hfind]

/-- C4 witness: the duplicate-rejection theorem applied to a concrete state obtained
by registering `a@x.com` and then registering it again. -/
theorem C4_register_rejects_duplicate_email_witness :
    ((register initState uA 0).2.accounts.any (fun a => a.email == uA.email) = true)
    ∧ register (register initState uA 0).2 uA 1
        = (.emailAlreadyRegistered, (register initState uA 0).2) :=
  ⟨by decide, C4_register_rejects_duplicate_email (register initState uA 0).2 uA 1 (by decide)⟩

/-- C5 counterexample. The claim says the validator accepts exactly the passwords
with ≥8 characters, an uppercase, a lowercase, a digit, and a symbol from the fixed
special set. `"Abcdefg1"` contains no character of the special set written in the
pattern, yet the validator accepts it: inside the class `[#?!@$%^&*-_]` the `*-_`
fragment is a character RANGE (codes 42–95), satisfied here by the digit `1`. -/
theorem C5_not_iff_at_Abcdefg1 :
    validate_password "Abcdefg1" = true ∧ specPolicy "Abcdefg1" = false := by
  constructor
  · decide
  · decide

/-- C5 (amended). For a password without newline characters, the validator accepts
iff it has at least 8 characters and contains at least one uppercase letter, one
lowercase letter, one digit, and one character of the class `[#?!@$%^&*-_]` — which,
because `*-_` is a character range covering codes 42–95, also admits any digit or
uppercase letter as the "special" character. (`"abcdefgh"` is still rejected and
`"Abcdef1!"` accepted.) -/
theorem C5_validator_characterization (s : String)
    (h : s.data.all (fun c => !(c == '\n')) = true) :
    validate_password s = true ↔
      (8 ≤ s.data.length ∧ s.data.any isUpperAZ = true ∧ s.data.any isLowerAZ = true
        ∧ s.data.any isDigit09 = true ∧ s.data.any inSpecialClass = true) := by
  unfold validate_password
  rw [scanFor_eq_any _ _ h, scanFor_eq_any _ _ h, scanFor_eq_any _ _ h,
    scanFor_eq_any _ _ h, bodyMatch_of_no_newline _ h]
  simp only [Bool.and_eq_true, decide_eq_true_eq]
  tauto

/-- C5 witness: the characterization applied to the concrete password `"Abcdef1!"`. -/
theorem C5_validator_characterization_witness :
    ("Abcdef1!".data.all (fun c => !(c == '\n')) = true)
    ∧ validate_password "Abcdef1!" = true :=
  ⟨by decide, (C5_validator_characterization "Abcdef1!" (by decide)).mpr (by decide)⟩

/-- C6. The claim says a signup whose password mismatches its confirmation or
violates the policy is rejected with no account created. `UserSignUp` does not
inherit `PasswordMixins`, so no validator runs at registration: the request with
password `"weak"` and confirmation `"different"` — which the mixin validation would
reject with a policy error — is accepted and the account is created. -/
theorem C6_register_skips_password_validation :
    parsePasswordMixins "weak" "different" = .error .policyError
    ∧ (register initState
        { email := "a@x.com", password := "weak", confirmed_password := "different" } 0).1
      = .created { id := "0", email := "a@x.com" }
    ∧ (register initState
        { email := "a@x.com", password := "weak", confirmed_password := "different" } 0).2.accounts.length = 1 := by
  refine ⟨rfl, by decide, by decide⟩

/-- C7. The claim says login on an existing, password-matching, unverified account
returns the NotVerified signal together with a code re-issue and notification. The
handler does raise HTTP 455 after calling `code_call`, but it invokes
`code_call({"email": ..., "action": "verify account"})` with one argument while the
method requires `(payload, request)`: the call raises `TypeError`, so the request
dies with an internal error, no notification is sent and the 455 signal is never
returned. The verified-account branch does return `{id, email}` as claimed. -/
theorem C7_login_unverified_dies_before_notverified :
    login stUnverified { email := "a@x.com", password := "Abcdef1!" }
      = (.typeErrorMissingRequest,
         [{ payload := { email := "a@x.com", action := "verify account" },
            outcome := .typeError }])
    ∧ login stVerified { email := "a@x.com", password := "Abcdef1!" }
      = (.ok "0" "a@x.com", []) := by
  constructor
  · decide
  · decide

/-- C8. The claim says `reset_password` consults the Code Store and updates the
account the code resolves to, failing only on an unresolvable code. The handler
instead evaluates `reset_password_info["token"]` on the dumped payload, whose keys
are `new_password`, `confirmed_new_password` and `code`; the `KeyError` is swallowed
by the bare `except Exception`, so every reset request fails with HTTP 400
"Invalid token": the Code Store is never read and no account is ever modified. -/
theorem C8_reset_password_always_invalid_token (st : DBState) (rp : ResetPassword) :
    reset_password st rp = (.invalidToken, st) := rfl

/-- C9. The claim says verifying an already-verified account is a side-effect-free
no-op success. The handler contains that early-return branch, but it is unreachable:
the preceding `verification_info.email` access raises `AttributeError`, so even with
the account enabled the verify call fails with an internal error instead of
succeeding. -/
theorem C9_verify_crashes_even_when_enabled :
    stVerified.accounts.all (fun a => a.is_account_enable) = true
    ∧ verify stVerified { code := "1234" } = (.attributeError, stVerified) := by
  constructor
  · decide
  · rfl

/-- C10. In `login` the password check precedes the verification-status check: when
the email resolves to an account and the password does not match, the result is the
wrong-password error with no notification attempt, even for an unverified account;
and any `code_call` attempt implies the account was found, the password matched, and
the account was unverified. -/
theorem C10_password_check_precedes_verification (st : DBState) (user : UserSignIn) :
    (∀ a, st.accounts.find? (fun x => x.email == user.email) = some a →
        verify_password user.password a.password = false →
        login st user = (.passwordWrong, []))
    ∧ (∀ e, e ∈ (login st user).2 →
        ∃ a, st.accounts.find? (fun x => x.email == user.email) = some a
          ∧ verify_password user.password a.password = true
          ∧ a.is_account_enable = false) := by
  constructor
  · intro a hfind hpw
    simp [login, hfind, hpw]
  · intro e he
    rcases hfind : st.accounts.find? (fun x => x.email == user.email) with _ | a
    · simp [login, hfind] at he
    · cases hpw : verify_password user.password a.password with
      | false => simp [login, hfind, hpw] at he
      | true =>
        cases hen : a.is_account_enable with
        | false => exact ⟨a, hfind, hpw, hen⟩
        | true => simp [login, hfind, hpw, hen] at he

/-- C10 witness: a wrong password against the stored unverified account `a@x.com`
yields the wrong-password error with no notification attempt. -/
theorem C10_password_check_precedes_verification_witness :
    login stUnverified { email := "a@x.com", password := "wrongpass" }
      = (.passwordWrong, []) :=
  (C10_password_check_precedes_verification stUnverified
      { email := "a@x.com", password := "wrongpass" }).1
    { oid := 0, email := "a@x.com", password := { plain := "Abcdef1!", salt := 7 },
      is_account_enable := false }
    (by decide) (by decide)

end Accounts
